import Mathlib

/-!
Shallow embedding of the dcpos_backend authentication/authorization core
(`app/core/security.py`, `app/api/v1/endpoints/{auth,users,products,platform}.py`)
and proofs of the specification claims about it.

Conventions of the embedding:
* UUIDs and integer primary keys are modelled as `Nat`.
* Timestamps are unix seconds (`Int`); a Python `timedelta` is its total
  number of seconds.
* A JWT is modelled as its signed claim set: the `sub` and `exp` claims
  plus the signing key.  `jwt.encode` is injective for a fixed key, so
  two tokens are equal exactly when their claim sets and keys agree.
* `Decimal` money columns are modelled in cents (`Int`); no claim
  depends on them.
* FastAPI `HTTPException`s abort the handler before any commit, so each
  handler is a total function into `Except ApiError α`; a mutating
  handler returns the new database in its `ok` value, hence an `error`
  result carries no mutation.
-/

/-- HTTP-level error outcomes used by the endpoints.  `conflict` (409) is part
of the spec's error taxonomy even though, as proved below, the code never
produces it on the uniqueness paths. -/
inductive ApiError where
  | badRequest
  | unauthorized
  | forbidden
  | notFound
  | conflict
  | serverError
deriving Repr, DecidableEq

/-- The HTTP status code each error maps to at the boundary. -/
def ApiError.statusCode : ApiError → Nat
  | .badRequest => 400
  | .unauthorized => 401
  | .forbidden => 403
  | .notFound => 404
  | .conflict => 409
  | .serverError => 500

/-- `app/models/auth.py::Role` -/
structure Role where
  id : Nat
  name : String
deriving Repr, DecidableEq

/-- `app/models/auth.py::User`.  The ORM loads the `role` relation eagerly, so
the record carries the `Role` object itself; `role_id` is `role.id`. -/
structure User where
  id : Nat
  companyId : Option Nat
  branchId : Option Nat
  role : Role
  username : String
  passwordHash : String
  isActive : Bool
deriving Repr, DecidableEq

/-- `app/models/platform.py::Company` -/
structure Company where
  id : Nat
  name : String
  slug : String
  createdAt : Int
deriving Repr, DecidableEq

/-- `app/models/platform.py::Branch` -/
structure Branch where
  id : Nat
  companyId : Nat
  name : String
  address : Option String
deriving Repr, DecidableEq

/-- `app/models/inventory.py::Product` -/
structure Product where
  id : Nat
  companyId : Nat
  name : String
  sku : String
  price : Int
  cost : Int
  isActive : Bool
  createdAt : Int
deriving Repr, DecidableEq

/-- The relational store: one table per model. -/
structure DB where
  roles : List Role
  users : List User
  companies : List Company
  branches : List Branch
  products : List Product
deriving Repr, DecidableEq

/-! ## `app/core/security.py` -/

def SECRET_KEY : String := "SUPER_SECRETA_Y_LARGA_CLAVE_QUE_DEBERIA_ESTAR_EN_ENV"

def ALGORITHM : String := "HS256"

/-- The constant is denominated in minutes in its name and comment. -/
def ACCESS_TOKEN_EXPIRE_MINUTES : Int := 10

def REFRESH_TOKEN_EXPIRE_DAYS : Int := 7

/-- A signed JWT, identified with its claim set and signing key
(`jwt.encode` is injective for a fixed key). -/
structure Token where
  sub : String
  exp : Int
  key : String
deriving Repr, DecidableEq

/-- `app/schemas/auth.py::TokenPayload` -/
structure TokenPayload where
  sub : Option String
  exp : Option Int
deriving Repr, DecidableEq

/-- `jwt.encode({"exp": expire, "sub": str(subject)}, key, algorithm)` -/
def jwtEncode (subject : String) (expire : Int) (key : String) : Token :=
  ⟨subject, expire, key⟩

/-- `security.create_access_token(subject, expires_delta)`.
`expiresDelta` is the `timedelta` in seconds; `none` means the default
`timedelta(minutes=ACCESS_TOKEN_EXPIRE_MINUTES)`. -/
def create_access_token (subject : String) (now : Int) (expiresDelta : Option Int) : Token :=
  let expire : Int :=
    match expiresDelta with
    | some d => now + d
    | none => now + ACCESS_TOKEN_EXPIRE_MINUTES * 60
  jwtEncode subject expire SECRET_KEY

/-- `security.create_refresh_token(subject, expires_delta)`.
`none` means the default `timedelta(days=REFRESH_TOKEN_EXPIRE_DAYS)`. -/
def create_refresh_token (subject : String) (now : Int) (expiresDelta : Option Int) : Token :=
  let expire : Int :=
    match expiresDelta with
    | some d => now + d
    | none => now + REFRESH_TOKEN_EXPIRE_DAYS * 86400
  jwtEncode subject expire SECRET_KEY

/-- `security.decode_token(token)` at current time `now`.
`jose.jwt.decode` verifies the signature (key match) and rejects the token
when its `exp` claim lies strictly in the past (zero leeway); every failure
is surfaced as HTTP 401. -/
def decode_token (now : Int) (t : Token) : Except ApiError TokenPayload :=
  if t.key = SECRET_KEY ∧ now ≤ t.exp then
    .ok ⟨some t.sub, some t.exp⟩
  else
    .error .unauthorized

/-- `security.get_password_hash`: passlib's salted pbkdf2 digest, modelled as
an injective tagging of the password. -/
def get_password_hash (password : String) : String :=
  "pbkdf2_sha256$" ++ password

/-- `security.verify_password` -/
def verify_password (plain hashed : String) : Bool :=
  hashed == get_password_hash plain

/-! ## `app/api/v1/endpoints/auth.py` -/

/-- `auth.get_current_user(db, token)`: decode the token, look the subject up
as a user id, reject a missing or inactive user with HTTP 403. -/
def get_current_user (db : DB) (now : Int) (token : Token) : Except ApiError User :=
  match decode_token now token with
  | .error e => .error e
  | .ok tokenData =>
    match tokenData.sub with
    | none => .error .unauthorized
    | some userId =>
      match db.users.find? (fun u => toString u.id == userId) with
      | none => .error .forbidden
      | some user =>
        if user.isActive then .ok user else .error .forbidden

/-- `auth.get_user_from_refresh_token(token, db)`: identical body to
`get_current_user`. -/
def get_user_from_refresh_token (db : DB) (now : Int) (token : Token) : Except ApiError User :=
  match decode_token now token with
  | .error e => .error e
  | .ok tokenData =>
    match tokenData.sub with
    | none => .error .unauthorized
    | some userId =>
      match db.users.find? (fun u => toString u.id == userId) with
      | none => .error .forbidden
      | some user =>
        if user.isActive then .ok user else .error .forbidden

/-- `auth.get_global_admin` dependency. -/
def get_global_admin (currentUser : User) : Except ApiError User :=
  if currentUser.role.name ≠ "global_admin" then .error .forbidden
  else .ok currentUser

/-- The body of the `Token` response model. -/
structure TokenResponse where
  access_token : Token
  refresh_token : Token
  token_type : String
  role : String
deriving Repr, DecidableEq

/-- `auth.login_for_access_token`.  Note the access token TTL is built as
`timedelta(seconds=ACCESS_TOKEN_EXPIRE_MINUTES)`. -/
def login_for_access_token (db : DB) (now : Int) (username password : String) :
    Except ApiError TokenResponse :=
  match db.users.find? (fun u => u.username == username) with
  | none => .error .unauthorized
  | some user =>
    if ¬ verify_password password user.passwordHash then .error .unauthorized
    else if ¬ user.isActive then .error .forbidden
    else
      let accessToken := create_access_token (toString user.id) now
        (some ACCESS_TOKEN_EXPIRE_MINUTES)
      let refreshToken := create_refresh_token (toString user.id) now
        (some (REFRESH_TOKEN_EXPIRE_DAYS * 86400))
      .ok ⟨accessToken, refreshToken, "bearer", user.role.name⟩

/-- `auth.refresh_access_token`: token rotation.  The new access token TTL is
again `timedelta(seconds=ACCESS_TOKEN_EXPIRE_MINUTES)`. -/
def refresh_access_token (db : DB) (now : Int) (refreshToken : Token) :
    Except ApiError TokenResponse :=
  match get_user_from_refresh_token db now refreshToken with
  | .error e => .error e
  | .ok currentUser =>
    let newAccessToken := create_access_token (toString currentUser.id) now
      (some ACCESS_TOKEN_EXPIRE_MINUTES)
    let newRefreshToken := create_refresh_token (toString currentUser.id) now
      (some (REFRESH_TOKEN_EXPIRE_DAYS * 86400))
    .ok ⟨newAccessToken, newRefreshToken, "bearer", currentUser.role.name⟩

/-! ## `app/api/v1/endpoints/users.py` -/

/-- `users.get_admin_user` dependency: global or company admin only. -/
def get_admin_user (currentUser : User) : Except ApiError User :=
  if ¬ (["global_admin", "company_admin"].contains currentUser.role.name) then
    .error .forbidden
  else .ok currentUser

/-- `users.get_user_and_check_access(user_id, db, current_user, is_update_or_delete)`. -/
def get_user_and_check_access (db : DB) (userId : Nat) (currentUser : User)
    (isUpdateOrDelete : Bool) : Except ApiError User :=
  match db.users.find? (fun u => u.id == userId) with
  | none => .error .notFound
  | some user =>
    if user.id == currentUser.id then .ok user
    else if ¬ (["global_admin", "company_admin"].contains currentUser.role.name) then
      .error .forbidden
    else if currentUser.role.name == "company_admin" then
      if user.companyId != currentUser.companyId then .error .forbidden
      else if isUpdateOrDelete &&
          ["global_admin", "company_admin"].contains user.role.name then
        .error .forbidden
      else .ok user
    else .ok user

/-- `users.read_users(db, admin, company_id, branch_id)`. -/
def read_users (db : DB) (currentUser : User) (companyIdQ branchIdQ : Option Nat) :
    Except ApiError (List User) := do
  let admin ← get_admin_user currentUser
  if admin.role.name == "company_admin" then
    let q := db.users.filter (fun u => u.companyId == admin.companyId)
    if companyIdQ.isSome && companyIdQ != admin.companyId then
      .error .forbidden
    else
      let q := match branchIdQ with
        | some b => q.filter (fun u => u.branchId == some b)
        | none => q
      .ok q
  else if admin.role.name == "global_admin" then
    let q := match companyIdQ with
      | some cid => db.users.filter (fun u => u.companyId == some cid)
      | none => db.users
    let q := match branchIdQ with
      | some b => q.filter (fun u => u.branchId == some b)
      | none => q
    .ok q
  else .ok db.users

/-- `app/schemas/auth.py::UserCreate` -/
structure UserCreate where
  username : String
  isActive : Bool
  roleId : Nat
  password : String
  companyId : Option Nat
  branchId : Option Nat
deriving Repr, DecidableEq

/-- `users.create_user(user_in, db, admin)`; `newId` is the generated uuid. -/
def create_user (db : DB) (admin0 : User) (uin : UserCreate) (newId : Nat) :
    Except ApiError (DB × User) := do
  let admin ← get_admin_user admin0
  if (db.users.find? (fun u => u.username == uin.username)).isSome then
    .error .badRequest
  else
    match db.roles.find? (fun r => r.id == uin.roleId) with
    | none => .error .notFound
    | some roleToAssign =>
      let rbac : Except ApiError (Option Nat) :=
        if admin.role.name == "company_admin" then
          if roleToAssign.id ≤ admin.role.id then .error .forbidden
          else if uin.companyId.isSome && uin.companyId != admin.companyId then
            .error .forbidden
          else
            match uin.branchId with
            | some b =>
              if (db.branches.find?
                  (fun br => br.id == b && some br.companyId == admin.companyId)).isSome then
                .ok admin.companyId
              else .error .notFound
            | none => .ok admin.companyId
        else if admin.role.name == "global_admin" then
          match uin.companyId with
          | some cid =>
            if (db.companies.find? (fun c => c.id == cid)).isNone then .error .notFound
            else
              match uin.branchId with
              | some b =>
                if (db.branches.find?
                    (fun br => br.id == b && br.companyId == cid)).isSome then
                  .ok (some cid)
                else .error .notFound
              | none => .ok (some cid)
          | none =>
            match uin.branchId with
            | some _ => .error .badRequest
            | none => .ok none
        else .ok uin.companyId
      match rbac with
      | .error e => .error e
      | .ok effCompanyId =>
        let dbUser : User :=
          { id := newId
            companyId := effCompanyId
            branchId := uin.branchId
            role := roleToAssign
            username := uin.username
            passwordHash := get_password_hash uin.password
            isActive := true }
        .ok ({ db with users := db.users ++ [dbUser] }, dbUser)

/-- `users.read_user(user_id, db, current_user)`. -/
def read_user (db : DB) (currentUser : User) (userId : Nat) : Except ApiError User :=
  get_user_and_check_access db userId currentUser false

/-- The dict `update_data = user_in.model_dump(exclude_unset=True)` handled by
`users.update_user`.  The outer `Option` is key presence in the payload; for
the nullable references the inner `Option` is an explicit `null` value versus
a concrete id.  The route schema `UserUpdate` exposes `username`, `is_active`,
`role_id`, `branch_id` and `password`; the handler additionally reads
`company_id` from the dict (`update_data.get("company_id")`), which that
schema never populates. -/
structure UserUpdatePayload where
  username : Option String
  isActive : Option Bool
  roleId : Option Nat
  branchId : Option (Option Nat)
  password : Option String
  companyId : Option (Option Nat)
deriving Repr, DecidableEq

/-- `users.update_user(user_id, user_in, db, current_user)`. -/
def update_user (db : DB) (currentUser : User) (userId : Nat)
    (uin : UserUpdatePayload) : Except ApiError (DB × User) := do
  let dbUser ← get_user_and_check_access db userId currentUser true
  let isSelfUpdate := currentUser.id == userId
  let isGlobalAdmin := currentUser.role.name == "global_admin"
  let roleStep : Except ApiError (Option Role) :=
    match uin.roleId with
    | none => .ok none
    | some roleIdToAssign =>
      match db.roles.find? (fun r => r.id == roleIdToAssign) with
      | none => .error .notFound
      | some role =>
        if ¬ isSelfUpdate && ¬ isGlobalAdmin then .error .forbidden
        else if currentUser.role.name == "company_admin" &&
            roleIdToAssign ≤ currentUser.role.id then
          .error .forbidden
        else .ok (some role)
  let newRole ← roleStep
  let newCompanyId : Option Nat := uin.companyId.join
  let companyStep : Except ApiError Unit :=
    match newCompanyId with
    | none => .ok ()
    | some cid =>
      if ¬ isGlobalAdmin then .error .forbidden
      else if (db.companies.find? (fun c => c.id == cid)).isNone then .error .notFound
      else .ok ()
  let _ ← companyStep
  let usernameStep : Except ApiError Unit :=
    match uin.username with
    | some un =>
      if un != dbUser.username && (db.users.find? (fun u => u.username == un)).isSome then
        .error .badRequest
      else .ok ()
    | none => .ok ()
  let _ ← usernameStep
  let newBranchId : Option Nat := uin.branchId.join
  let branchStep : Except ApiError Unit :=
    match newBranchId with
    | none => .ok ()
    | some b =>
      let targetCompanyId := match newCompanyId with
        | some c => some c
        | none => dbUser.companyId
      match targetCompanyId with
      | none => .error .badRequest
      | some tc =>
        if (db.branches.find? (fun br => br.id == b && br.companyId == tc)).isSome then
          .ok ()
        else .error .notFound
  let _ ← branchStep
  let u1 : User :=
    { dbUser with
      username := uin.username.getD dbUser.username
      isActive := uin.isActive.getD dbUser.isActive
      role := newRole.getD dbUser.role
      branchId := match uin.branchId with
        | some b => b
        | none => dbUser.branchId
      companyId := match uin.companyId with
        | some c => c
        | none => dbUser.companyId
      passwordHash := match uin.password with
        | some p => get_password_hash p
        | none => dbUser.passwordHash }
  let u2 : User :=
    if newCompanyId.isSome && newBranchId.isNone then { u1 with branchId := none }
    else u1
  .ok ({ db with users := db.users.map (fun u => if u.id == dbUser.id then u2 else u) }, u2)

/-! ## `app/api/v1/endpoints/products.py` -/

/-- `products.get_product_management_access` dependency. -/
def get_product_management_access (currentUser : User) : Except ApiError User :=
  get_admin_user currentUser

/-- `products.get_product_and_check_access(product_id, db, admin)`. -/
def get_product_and_check_access (db : DB) (productId : Nat) (admin : User) :
    Except ApiError Product :=
  match db.products.find? (fun p => p.id == productId) with
  | none => .error .notFound
  | some product =>
    if admin.role.name == "company_admin" && some product.companyId != admin.companyId then
      .error .forbidden
    else .ok product

/-- `app/schemas/inventory.py::ProductCreate` -/
structure ProductCreate where
  name : String
  sku : String
  price : Int
  cost : Int
  isActive : Bool
  companyId : Nat
deriving Repr, DecidableEq

/-- `products.create_product(product_in, db, admin)`; `newId` is the generated
uuid, `now` the insertion timestamp. -/
def create_product (db : DB) (admin0 : User) (pin : ProductCreate) (newId : Nat)
    (now : Int) : Except ApiError (DB × Product) := do
  let admin ← get_product_management_access admin0
  if admin.role.name == "company_admin" && some pin.companyId != admin.companyId then
    .error .forbidden
  else if (db.products.find?
      (fun p => p.sku == pin.sku && p.companyId == pin.companyId)).isSome then
    .error .badRequest
  else
    let dbProduct : Product :=
      ⟨newId, pin.companyId, pin.name, pin.sku, pin.price, pin.cost, pin.isActive, now⟩
    .ok ({ db with products := db.products ++ [dbProduct] }, dbProduct)

/-- Contiguous-sublist test on character lists. -/
def charsContain (haystack needle : List Char) : Bool :=
  match haystack with
  | [] => needle.isEmpty
  | _ :: t => (haystack.take needle.length == needle) || charsContain t needle

/-- The SQL `ILIKE %pattern%` test used by the product search filter. -/
def ilikeContains (field pattern : String) : Bool :=
  charsContain field.toLower.data pattern.toLower.data

/-- `products.read_products(db, current_user, limit, skip, search, company_id)`. -/
def read_products (db : DB) (currentUser : User) (limit skip : Nat)
    (search : Option String) (companyIdQ : Option Nat) : Except ApiError (List Product) :=
  let q : List Product := db.products
  let q : List Product :=
    if currentUser.role.name == "global_admin" then
      match companyIdQ with
      | some cid => q.filter (fun p => p.companyId == cid)
      | none => q
    else
      q.filter (fun p => some p.companyId == currentUser.companyId)
  let q : List Product := match search with
    | some s => q.filter (fun p => ilikeContains p.name s || ilikeContains p.sku s)
    | none => q
  .ok ((q.drop skip).take limit)

/-- `products.read_product(product_id, db, current_user)`. -/
def read_product (db : DB) (currentUser : User) (productId : Nat) :
    Except ApiError Product :=
  match db.products.find? (fun p => p.id == productId) with
  | none => .error .notFound
  | some dbProduct =>
    if currentUser.role.name != "global_admin" &&
        some dbProduct.companyId != currentUser.companyId then
      .error .forbidden
    else .ok dbProduct

/-- The dict handled by `products.update_product` (all keys optional; the
apply loop skips `None` values, so no inner `Option` is needed). -/
structure ProductUpdatePayload where
  name : Option String
  sku : Option String
  price : Option Int
  cost : Option Int
  isActive : Option Bool
deriving Repr, DecidableEq

/-- `products.update_product(product_id, product_in, db, admin)`. -/
def update_product (db : DB) (admin0 : User) (productId : Nat)
    (pin : ProductUpdatePayload) : Except ApiError (DB × Product) := do
  let admin ← get_product_management_access admin0
  let dbProduct ← get_product_and_check_access db productId admin
  let skuStep : Except ApiError Unit :=
    match pin.sku with
    | some sku =>
      if sku != dbProduct.sku && (db.products.find?
          (fun p => p.sku == sku && p.companyId == dbProduct.companyId)).isSome then
        .error .badRequest
      else .ok ()
    | none => .ok ()
  let _ ← skuStep
  let p1 : Product :=
    { dbProduct with
      name := pin.name.getD dbProduct.name
      sku := pin.sku.getD dbProduct.sku
      price := pin.price.getD dbProduct.price
      cost := pin.cost.getD dbProduct.cost
      isActive := pin.isActive.getD dbProduct.isActive }
  .ok ({ db with products := db.products.map (fun p => if p.id == dbProduct.id then p1 else p) }, p1)

/-! ## `app/api/v1/endpoints/platform.py` -/

/-- `app/schemas/platform.py::CompanyCreate` -/
structure CompanyCreate where
  name : String
  slug : String
deriving Repr, DecidableEq

/-- `platform.create_company(company_in, db, admin)`; `newId` is the generated
uuid, `now` the insertion timestamp. -/
def create_company (db : DB) (admin0 : User) (cin : CompanyCreate) (newId : Nat)
    (now : Int) : Except ApiError (DB × Company) := do
  let _ ← get_global_admin admin0
  if (db.companies.find? (fun c => c.slug == cin.slug)).isSome then
    .error .badRequest
  else
    let dbCompany : Company := ⟨newId, cin.name, cin.slug, now⟩
    .ok ({ db with companies := db.companies ++ [dbCompany] }, dbCompany)

/-- `platform.read_company(company_id, db, user)`. -/
def read_company (db : DB) (user : User) (companyId : Nat) : Except ApiError Company :=
  match db.companies.find? (fun c => c.id == companyId) with
  | none => .error .notFound
  | some company =>
    if user.role.name != "global_admin" && user.companyId != some companyId then
      .error .forbidden
    else .ok company

/-! ## Concrete fixtures (used by the witnesses and counterexamples) -/

deriving instance DecidableEq for Except

def roleGlobalAdmin : Role := ⟨1, "global_admin"⟩

def roleCompanyAdmin : Role := ⟨2, "company_admin"⟩

def roleCashier : Role := ⟨3, "cashier"⟩

def acmeCo : Company := ⟨10, "Acme", "acme", 0⟩

def betaCo : Company := ⟨20, "Beta", "beta", 0⟩

def acmeBranch : Branch := ⟨30, 10, "Main", none⟩

def uGlobal : User :=
  ⟨100, none, none, roleGlobalAdmin, "root", get_password_hash "rootpw", true⟩

def uAcmeAdmin : User :=
  ⟨101, some 10, none, roleCompanyAdmin, "acme_admin", get_password_hash "acmepw", true⟩

def uBetaCashier : User :=
  ⟨102, some 20, none, roleCashier, "beta_cashier", get_password_hash "betapw", true⟩

def uInactive : User :=
  ⟨103, none, none, roleCashier, "ghost", get_password_hash "ghostpw", false⟩

def betaCola : Product := ⟨200, 20, "Cola", "SKU-1", 150, 100, true, 0⟩

def testDB : DB :=
  ⟨[roleGlobalAdmin, roleCompanyAdmin, roleCashier],
   [uGlobal, uAcmeAdmin, uBetaCashier, uInactive],
   [acmeCo, betaCo],
   [acmeBranch],
   [betaCola]⟩

/-- The response `login_for_access_token testDB 0 "root" "rootpw"` evaluates to. -/
def testLoginResponse : TokenResponse :=
  ⟨⟨"100", 10, SECRET_KEY⟩, ⟨"100", 604800, SECRET_KEY⟩, "bearer", "global_admin"⟩

/-- The response `refresh_access_token testDB 0` evaluates to on a fresh
refresh token for `uGlobal`. -/
def testRefreshResponse : TokenResponse :=
  ⟨⟨"100", 10, SECRET_KEY⟩, ⟨"100", 604800, SECRET_KEY⟩, "bearer", "global_admin"⟩

/-- An empty `PATCH /users` payload. -/
def emptyUserUpdate : UserUpdatePayload := ⟨none, none, none, none, none, none⟩

/-- An empty `PATCH /products` payload. -/
def emptyProductUpdate : ProductUpdatePayload := ⟨none, none, none, none, none⟩

/-- A second product colliding with `betaCola` on (SKU, company). -/
def dupSkuProductIn : ProductCreate := ⟨"Cola Zero", "SKU-1", 120, 90, true, 20⟩

/-- A company colliding with `acmeCo` on slug. -/
def dupSlugCompanyIn : CompanyCreate := ⟨"Acme Two", "acme"⟩

/-- A `PATCH /users` dict that only reassigns `company_id` (to company 10). -/
def movePayload : UserUpdatePayload := ⟨none, none, none, none, none, some (some 10)⟩

/-- `uBetaCashier` after `update_user` with `movePayload`: company reassigned,
branch reset to `None`. -/
def movedBetaCashier : User :=
  ⟨102, some 10, none, roleCashier, "beta_cashier", get_password_hash "betapw", true⟩

/-- `testDB` after `update_user testDB uGlobal 102 movePayload`. -/
def testDBAfterMove : DB :=
  ⟨[roleGlobalAdmin, roleCompanyAdmin, roleCashier],
   [uGlobal, uAcmeAdmin, movedBetaCashier, uInactive],
   [acmeCo, betaCo],
   [acmeBranch],
   [betaCola]⟩

/-! ## Claims -/

/-- C8: Token round-trip and expiry.  For every subject `s` and every TTL > 0,
decoding a token at a time strictly before the embedded expiry yields the
original subject `s`; decoding the same token at any time after the TTL has
elapsed fails with `Unauthorized`. -/
theorem token_roundtrip_and_expiry (s : String) (t0 ttl now : Int) (_httl : 0 < ttl) :
    (now < (create_access_token s t0 (some ttl)).exp →
      decode_token now (create_access_token s t0 (some ttl)) =
        .ok ⟨some s, some (t0 + ttl)⟩) ∧
    (t0 + ttl < now →
      decode_token now (create_access_token s t0 (some ttl)) = .error .unauthorized) := by
  constructor
  · intro h
    simp only [create_access_token, jwtEncode] at h
    have hle : now ≤ t0 + ttl := le_of_lt h
    simp [create_access_token, jwtEncode, decode_token, hle]
  · intro h
    have hgt : ¬ (now ≤ t0 + ttl) := by omega
    simp [create_access_token, jwtEncode, decode_token, hgt]

theorem token_roundtrip_and_expiry_witness :
    decode_token 5 (create_access_token "100" 0 (some 10)) = .ok ⟨some "100", some 10⟩ ∧
    decode_token 11 (create_access_token "100" 0 (some 10)) = .error .unauthorized :=
  ⟨(token_roundtrip_and_expiry "100" 0 10 5 (by decide)).1 (by decide),
   (token_roundtrip_and_expiry "100" 0 10 11 (by decide)).2 (by decide)⟩

/-- C9: At both the login endpoint and the refresh endpoint, the freshly
issued access token expires `ACCESS_TOKEN_EXPIRE_MINUTES` seconds
(10 seconds) after issuance — not 10 minutes — because both handlers build
the TTL as `timedelta(seconds=ACCESS_TOKEN_EXPIRE_MINUTES)` from a constant
denominated in minutes; the refresh token issued alongside expires
`REFRESH_TOKEN_EXPIRE_DAYS` = 7 days after issuance. -/
theorem access_token_ttl_in_seconds (db : DB) (now : Int) :
    (∀ username password r,
      login_for_access_token db now username password = .ok r →
      r.access_token.exp = now + ACCESS_TOKEN_EXPIRE_MINUTES ∧
      r.access_token.exp = now + 10 ∧
      r.access_token.exp ≠ now + 10 * 60 ∧
      r.refresh_token.exp = now + REFRESH_TOKEN_EXPIRE_DAYS * 86400) ∧
    (∀ rt r,
      refresh_access_token db now rt = .ok r →
      r.access_token.exp = now + ACCESS_TOKEN_EXPIRE_MINUTES ∧
      r.access_token.exp = now + 10 ∧
      r.access_token.exp ≠ now + 10 * 60 ∧
      r.refresh_token.exp = now + REFRESH_TOKEN_EXPIRE_DAYS * 86400) := by
  constructor
  · intro username password r h
    unfold login_for_access_token at h
    split at h
    · cases h
    · split at h
      · cases h
      · split at h
        · cases h
        · cases h
          refine ⟨?_, ?_, ?_, ?_⟩ <;>
            simp [create_access_token, create_refresh_token, jwtEncode,
              ACCESS_TOKEN_EXPIRE_MINUTES, REFRESH_TOKEN_EXPIRE_DAYS]
  · intro rt r h
    unfold refresh_access_token at h
    split at h
    · cases h
    · cases h
      refine ⟨?_, ?_, ?_, ?_⟩ <;>
        simp [create_access_token, create_refresh_token, jwtEncode,
          ACCESS_TOKEN_EXPIRE_MINUTES, REFRESH_TOKEN_EXPIRE_DAYS]

theorem access_token_ttl_in_seconds_witness :
    testLoginResponse.access_token.exp = 0 + ACCESS_TOKEN_EXPIRE_MINUTES ∧
    testLoginResponse.access_token.exp = 0 + 10 ∧
    testLoginResponse.access_token.exp ≠ 0 + 10 * 60 ∧
    testLoginResponse.refresh_token.exp = 0 + REFRESH_TOKEN_EXPIRE_DAYS * 86400 :=
  (access_token_ttl_in_seconds testDB 0).1 "root" "rootpw" testLoginResponse (by decide)

/-- C4: Access and refresh tokens are indistinguishable at the token level:
`create_access_token` and `create_refresh_token` produce tokens of identical
shape (`{sub, exp}` signed with the same secret and algorithm, differing only
in their default TTL), `decode_token` verifies both identically with no kind
discriminant, and consequently an unexpired access token presented at the
refresh endpoint is accepted and yields new access and refresh tokens. -/
theorem token_kind_indistinguishable :
    (∀ s now d, create_access_token s now (some d) = create_refresh_token s now (some d)) ∧
    (∀ s now,
      (create_access_token s now none).sub = (create_refresh_token s now none).sub ∧
      (create_access_token s now none).key = (create_refresh_token s now none).key ∧
      (create_access_token s now none).exp = now + ACCESS_TOKEN_EXPIRE_MINUTES * 60 ∧
      (create_refresh_token s now none).exp = now + REFRESH_TOKEN_EXPIRE_DAYS * 86400) ∧
    (∀ now s t0 d,
      decode_token now (create_access_token s t0 (some d)) =
        decode_token now (create_refresh_token s t0 (some d))) ∧
    (∀ (db : DB) (now t0 d : Int) (u : User),
      db.users.find? (fun v => toString v.id == toString u.id) = some u →
      u.isActive = true →
      now ≤ t0 + d →
      refresh_access_token db now (create_access_token (toString u.id) t0 (some d)) =
        .ok ⟨create_access_token (toString u.id) now (some ACCESS_TOKEN_EXPIRE_MINUTES),
             create_refresh_token (toString u.id) now
               (some (REFRESH_TOKEN_EXPIRE_DAYS * 86400)),
             "bearer", u.role.name⟩) := by
  refine ⟨fun s now d => rfl, fun s now => ⟨rfl, rfl, rfl, rfl⟩, fun now s t0 d => rfl,
    fun db now t0 d u hfind hactive hexp => ?_⟩
  unfold refresh_access_token get_user_from_refresh_token decode_token
    create_access_token jwtEncode
  simp only []
  rw [if_pos ⟨by trivial, hexp⟩]
  simp [hfind, hactive]

theorem token_kind_indistinguishable_witness :
    refresh_access_token testDB 3 (create_access_token (toString uGlobal.id) 0 (some 10)) =
      .ok ⟨create_access_token (toString uGlobal.id) 3 (some ACCESS_TOKEN_EXPIRE_MINUTES),
           create_refresh_token (toString uGlobal.id) 3
             (some (REFRESH_TOKEN_EXPIRE_DAYS * 86400)),
           "bearer", uGlobal.role.name⟩ :=
  token_kind_indistinguishable.2.2.2 testDB 3 0 10 uGlobal (by decide) (by decide) (by decide)

/-- C3: Refresh rotation.  For every valid (well-formed, unexpired) refresh
token whose subject is an existing active user `u`, the refresh endpoint
returns both a new access token and a new refresh token; the two returned
tokens are distinct from each other, and each of them decodes to subject
`u`. -/
theorem refresh_rotation (db : DB) (now : Int) (rt : Token) (u : User)
    (hkey : rt.key = SECRET_KEY) (hexp : now ≤ rt.exp)
    (hfind : db.users.find? (fun v => toString v.id == rt.sub) = some u)
    (hactive : u.isActive = true) :
    refresh_access_token db now rt =
      .ok ⟨⟨toString u.id, now + ACCESS_TOKEN_EXPIRE_MINUTES, SECRET_KEY⟩,
           ⟨toString u.id, now + REFRESH_TOKEN_EXPIRE_DAYS * 86400, SECRET_KEY⟩,
           "bearer", u.role.name⟩ ∧
    (⟨toString u.id, now + ACCESS_TOKEN_EXPIRE_MINUTES, SECRET_KEY⟩ : Token) ≠
      ⟨toString u.id, now + REFRESH_TOKEN_EXPIRE_DAYS * 86400, SECRET_KEY⟩ ∧
    decode_token now ⟨toString u.id, now + ACCESS_TOKEN_EXPIRE_MINUTES, SECRET_KEY⟩ =
      .ok ⟨some (toString u.id), some (now + ACCESS_TOKEN_EXPIRE_MINUTES)⟩ ∧
    decode_token now ⟨toString u.id, now + REFRESH_TOKEN_EXPIRE_DAYS * 86400, SECRET_KEY⟩ =
      .ok ⟨some (toString u.id), some (now + REFRESH_TOKEN_EXPIRE_DAYS * 86400)⟩ := by
  refine ⟨?_, ?_, ?_, ?_⟩
  · unfold refresh_access_token get_user_from_refresh_token decode_token
    rw [if_pos ⟨hkey, hexp⟩]
    simp [hfind, hactive, create_access_token, create_refresh_token, jwtEncode]
  · intro hEq
    have hexps := congrArg Token.exp hEq
    simp [ACCESS_TOKEN_EXPIRE_MINUTES, REFRESH_TOKEN_EXPIRE_DAYS] at hexps
  · unfold decode_token
    rw [if_pos ⟨by trivial, by simp [ACCESS_TOKEN_EXPIRE_MINUTES]⟩]
  · unfold decode_token
    rw [if_pos ⟨by trivial, by simp [REFRESH_TOKEN_EXPIRE_DAYS]⟩]

theorem refresh_rotation_witness :
    refresh_access_token testDB 0 ⟨"100", 50, SECRET_KEY⟩ =
      .ok ⟨⟨toString uGlobal.id, 0 + ACCESS_TOKEN_EXPIRE_MINUTES, SECRET_KEY⟩,
           ⟨toString uGlobal.id, 0 + REFRESH_TOKEN_EXPIRE_DAYS * 86400, SECRET_KEY⟩,
           "bearer", uGlobal.role.name⟩ ∧
    (⟨toString uGlobal.id, 0 + ACCESS_TOKEN_EXPIRE_MINUTES, SECRET_KEY⟩ : Token) ≠
      ⟨toString uGlobal.id, 0 + REFRESH_TOKEN_EXPIRE_DAYS * 86400, SECRET_KEY⟩ ∧
    decode_token 0 ⟨toString uGlobal.id, 0 + ACCESS_TOKEN_EXPIRE_MINUTES, SECRET_KEY⟩ =
      .ok ⟨some (toString uGlobal.id), some (0 + ACCESS_TOKEN_EXPIRE_MINUTES)⟩ ∧
    decode_token 0 ⟨toString uGlobal.id, 0 + REFRESH_TOKEN_EXPIRE_DAYS * 86400, SECRET_KEY⟩ =
      .ok ⟨some (toString uGlobal.id), some (0 + REFRESH_TOKEN_EXPIRE_DAYS * 86400)⟩ :=
  refresh_rotation testDB 0 ⟨"100", 50, SECRET_KEY⟩ uGlobal (by decide) (by decide)
    (by decide) (by decide)

/-- C6 counterexample: a well-formed unexpired token whose decoded subject
matches no existing user is rejected by `get_current_user` with `Forbidden`
(HTTP 403), not with a `NotFoundOrInactive` mapped to status 404 as the
claim states. -/
theorem identity_resolution_counterexample :
    get_current_user testDB 0 ⟨"999", 100, SECRET_KEY⟩ = .error .forbidden ∧
    ApiError.forbidden.statusCode = 403 ∧
    ApiError.forbidden.statusCode ≠ 404 ∧
    get_current_user testDB 0 ⟨"999", 100, SECRET_KEY⟩ ≠ .error .notFound := by
  refine ⟨by decide, rfl, by decide, by decide⟩

/-- C6 (amended): for every bearer token, resolution fails with `Unauthorized`
when token decoding fails, and fails with `Forbidden` (HTTP 403 — not the
claimed 404) when the decoded subject matches no existing active user; on
success it returns that (active) user.  The function consumes the store and
returns no modified store: it performs no writes. -/
theorem identity_resolution (db : DB) (now : Int) (tok : Token) :
    (∀ e, decode_token now tok = .error e →
      get_current_user db now tok = .error e ∧ e = .unauthorized) ∧
    (∀ p uid, decode_token now tok = .ok p → p.sub = some uid →
      db.users.find? (fun u => toString u.id == uid) = none →
      get_current_user db now tok = .error .forbidden) ∧
    (∀ p uid u, decode_token now tok = .ok p → p.sub = some uid →
      db.users.find? (fun v => toString v.id == uid) = some u → u.isActive = false →
      get_current_user db now tok = .error .forbidden) ∧
    (∀ u, get_current_user db now tok = .ok u → u.isActive = true) := by
  refine ⟨?_, ?_, ?_, ?_⟩
  · intro e he
    refine ⟨?_, ?_⟩
    · unfold get_current_user
      rw [he]
    · unfold decode_token at he
      split at he
      · cases he
      · cases he
        rfl
  · intro p uid hp hsub hfind
    simp [get_current_user, hp, hsub, hfind]
  · intro p uid u hp hsub hfind hactive
    simp [get_current_user, hp, hsub, hfind, hactive]
  · intro u hu
    unfold get_current_user at hu
    split at hu
    · cases hu
    · split at hu
      · cases hu
      · split at hu
        · cases hu
        · split at hu
          · cases hu
            assumption
          · cases hu

theorem identity_resolution_witness :
    (get_current_user testDB 0 ⟨"100", 100, "wrongkey"⟩ = .error .unauthorized ∧
      ApiError.unauthorized = ApiError.unauthorized) ∧
    get_current_user testDB 0 ⟨"999", 100, SECRET_KEY⟩ = .error .forbidden ∧
    get_current_user testDB 0 ⟨"103", 100, SECRET_KEY⟩ = .error .forbidden ∧
    uGlobal.isActive = true :=
  ⟨(identity_resolution testDB 0 ⟨"100", 100, "wrongkey"⟩).1 .unauthorized (by decide),
   (identity_resolution testDB 0 ⟨"999", 100, SECRET_KEY⟩).2.1 ⟨some "999", some 100⟩
     "999" (by decide) (by decide) (by decide),
   (identity_resolution testDB 0 ⟨"103", 100, SECRET_KEY⟩).2.2.1 ⟨some "103", some 100⟩
     "103" uInactive (by decide) (by decide) (by decide) (by decide),
   (identity_resolution testDB 0 ⟨"100", 100, SECRET_KEY⟩).2.2.2 uGlobal (by decide)⟩

/-- C2 counterexample: the second product with an existing (SKU, company_id)
pair, and the second company with an existing slug, are rejected with
`BadRequest` (HTTP 400), not with the claimed `Conflict` (409). -/
theorem uniqueness_conflict_counterexample :
    create_product testDB uGlobal dupSkuProductIn 999 0 = .error .badRequest ∧
    create_product testDB uGlobal dupSkuProductIn 999 0 ≠ .error .conflict ∧
    create_company testDB uGlobal dupSlugCompanyIn 999 0 = .error .badRequest ∧
    create_company testDB uGlobal dupSlugCompanyIn 999 0 ≠ .error .conflict ∧
    ApiError.badRequest.statusCode = 400 ∧ ApiError.conflict.statusCode = 409 :=
  ⟨by decide, by decide, by decide, by decide, rfl, rfl⟩

/-- C2 (amended): every create attempt that fails its uniqueness pre-check (a
second product with the same SKU and same company_id, or a second company
with the same slug) short-circuits before any mutation — the result is an
error, so no row is inserted and no existing row is changed — but the error
returned is `BadRequest` (HTTP 400), not `Conflict` (409). -/
theorem uniqueness_short_circuit (db : DB) (admin : User) (pin : ProductCreate)
    (cin : CompanyCreate) (newId : Nat) (now : Int) :
    (get_product_management_access admin = .ok admin →
      (admin.role.name == "company_admin" && some pin.companyId != admin.companyId) = false →
      (db.products.find?
        (fun p => p.sku == pin.sku && p.companyId == pin.companyId)).isSome →
      create_product db admin pin newId now = .error .badRequest) ∧
    (get_global_admin admin = .ok admin →
      (db.companies.find? (fun c => c.slug == cin.slug)).isSome →
      create_company db admin cin newId now = .error .badRequest) := by
  constructor
  · intro hdep hco hdup
    unfold create_product
    rw [hdep]
    simp [bind, Except.bind, hco, hdup]
  · intro hdep hdup
    unfold create_company
    rw [hdep]
    simp [bind, Except.bind, hdup]

theorem uniqueness_short_circuit_witness :
    create_product testDB uGlobal dupSkuProductIn 500 7 = .error .badRequest ∧
    create_company testDB uGlobal dupSlugCompanyIn 501 7 = .error .badRequest :=
  ⟨(uniqueness_short_circuit testDB uGlobal dupSkuProductIn dupSlugCompanyIn 500 7).1
      (by decide) (by decide) (by decide),
   (uniqueness_short_circuit testDB uGlobal dupSkuProductIn dupSlugCompanyIn 501 7).2
      (by decide) (by decide)⟩

/-- C1: Tenant isolation.  For every user whose role is `company_admin` with
company reference `a`, and every target entity (user, product, or company
record) whose company reference is not `a`, a read or modify request by that
admin is denied with `Forbidden`; the result is an error, so the entity is
never returned and never mutated. -/
theorem tenant_isolation (db : DB) (admin : User) (a : Nat)
    (hrole : admin.role.name = "company_admin")
    (hco : admin.companyId = some a) :
    (∀ uid u b, db.users.find? (fun v => v.id == uid) = some u →
      u.companyId ≠ some a → u.id ≠ admin.id →
      get_user_and_check_access db uid admin b = .error .forbidden) ∧
    (∀ pid p, db.products.find? (fun v => v.id == pid) = some p →
      p.companyId ≠ a →
      get_product_and_check_access db pid admin = .error .forbidden) ∧
    (∀ cid, cid ≠ a → (db.companies.find? (fun c => c.id == cid)).isSome →
      read_company db admin cid = .error .forbidden) ∧
    (∀ pid p, db.products.find? (fun v => v.id == pid) = some p →
      p.companyId ≠ a →
      read_product db admin pid = .error .forbidden) ∧
    (∀ uid u payload, db.users.find? (fun v => v.id == uid) = some u →
      u.companyId ≠ some a → u.id ≠ admin.id →
      update_user db admin uid payload = .error .forbidden) ∧
    (∀ pid p payload, db.products.find? (fun v => v.id == pid) = some p →
      p.companyId ≠ a →
      update_product db admin pid payload = .error .forbidden) := by
  have huser : ∀ uid u b, db.users.find? (fun v => v.id == uid) = some u →
      u.companyId ≠ some a → u.id ≠ admin.id →
      get_user_and_check_access db uid admin b = .error .forbidden := by
    intro uid u b hfind hne hid
    unfold get_user_and_check_access
    rw [hfind]
    simp [hid, hrole, hco, hne]
  have hprod : ∀ pid p, db.products.find? (fun v => v.id == pid) = some p →
      p.companyId ≠ a →
      get_product_and_check_access db pid admin = .error .forbidden := by
    intro pid p hfind hne
    unfold get_product_and_check_access
    rw [hfind]
    simp [hrole, hco, hne]
  refine ⟨huser, hprod, ?_, ?_, ?_, ?_⟩
  · intro cid hcidne hsome
    obtain ⟨c, hc⟩ := Option.isSome_iff_exists.mp hsome
    unfold read_company
    rw [hc]
    simp [hrole, hco, Ne.symm hcidne]
  · intro pid p hfind hne
    unfold read_product
    rw [hfind]
    simp [hrole, hco, hne]
  · intro uid u payload hfind hne hid
    unfold update_user
    rw [huser uid u true hfind hne hid]
    simp [bind, Except.bind]
  · intro pid p payload hfind hne
    have hdep : get_product_management_access admin = .ok admin := by
      unfold get_product_management_access get_admin_user
      simp [hrole]
    unfold update_product
    rw [hdep]
    simp [bind, Except.bind, hprod pid p hfind hne]

theorem tenant_isolation_witness :
    get_user_and_check_access testDB 102 uAcmeAdmin true = .error .forbidden ∧
    get_product_and_check_access testDB 200 uAcmeAdmin = .error .forbidden ∧
    read_company testDB uAcmeAdmin 20 = .error .forbidden ∧
    read_product testDB uAcmeAdmin 200 = .error .forbidden ∧
    update_user testDB uAcmeAdmin 102 emptyUserUpdate = .error .forbidden ∧
    update_product testDB uAcmeAdmin 200 emptyProductUpdate = .error .forbidden := by
  have T := tenant_isolation testDB uAcmeAdmin 10 (by decide) (by decide)
  exact ⟨T.1 102 uBetaCashier true (by decide) (by decide) (by decide),
    T.2.1 200 betaCola (by decide) (by decide),
    T.2.2.1 20 (by decide) (by decide),
    T.2.2.2.1 200 betaCola (by decide) (by decide),
    T.2.2.2.2.1 102 uBetaCashier emptyUserUpdate (by decide) (by decide) (by decide),
    T.2.2.2.2.2 200 betaCola emptyProductUpdate (by decide) (by decide)⟩

/-- C7 counterexample: a company_admin (company 10) listing users with a
client-supplied conflicting filter `company_id = 20` receives `Forbidden`:
the users list rejects the conflicting filter with an error instead of
silently overriding/ignoring it as the claim states. -/
theorem list_scoping_counterexample :
    read_users testDB uAcmeAdmin (some 20) none = .error .forbidden := by decide

/-- C7 (amended): for list operations invoked by a company_admin the filter
`company_id == own company` is injected as a mandatory constraint and every
returned row carries the admin's company_id; however the two list endpoints
treat a client-supplied conflicting company_id filter differently: the users
list rejects it with `Forbidden`, while the products list silently ignores
the client-supplied company_id (the result does not depend on it). -/
theorem list_scoping (db : DB) (admin : User) (a : Nat)
    (hrole : admin.role.name = "company_admin") (hco : admin.companyId = some a) :
    (∀ bq l, read_users db admin none bq = .ok l → ∀ u ∈ l, u.companyId = some a) ∧
    (∀ bq l, read_users db admin (some a) bq = .ok l → ∀ u ∈ l, u.companyId = some a) ∧
    (∀ cq bq, cq.isSome = true → cq ≠ admin.companyId →
      read_users db admin cq bq = .error .forbidden) ∧
    (∀ limit skip search q1 q2, read_products db admin limit skip search q1 =
      read_products db admin limit skip search q2) ∧
    (∀ limit skip search cq l, read_products db admin limit skip search cq = .ok l →
      ∀ p ∈ l, p.companyId = a) := by
  have hdep : get_admin_user admin = .ok admin := by
    unfold get_admin_user
    simp [hrole]
  have hmem : ∀ (u : User), u ∈ db.users.filter (fun v => v.companyId == admin.companyId) →
      u.companyId = some a := by
    intro u hu
    have hpred := (List.mem_filter.mp hu).2
    rw [hco] at hpred
    simpa using hpred
  refine ⟨?_, ?_, ?_, ?_, ?_⟩
  · intro bq l hok u hu
    unfold read_users at hok
    rw [hdep] at hok
    simp only [bind, Except.bind] at hok
    rw [if_pos (by simp [hrole])] at hok
    simp only [Option.isSome_none, Bool.false_and, Bool.false_eq_true, if_false] at hok
    cases bq with
    | none =>
      simp only [Except.ok.injEq] at hok
      subst hok
      exact hmem u hu
    | some b =>
      simp only [Except.ok.injEq] at hok
      subst hok
      exact hmem u (List.mem_of_mem_filter hu)
  · intro bq l hok u hu
    unfold read_users at hok
    rw [hdep] at hok
    simp only [bind, Except.bind] at hok
    rw [if_pos (by simp [hrole])] at hok
    rw [if_neg (by simp [hco])] at hok
    cases bq with
    | none =>
      simp only [Except.ok.injEq] at hok
      subst hok
      exact hmem u hu
    | some b =>
      simp only [Except.ok.injEq] at hok
      subst hok
      exact hmem u (List.mem_of_mem_filter hu)
  · intro cq bq hsome hne
    unfold read_users
    rw [hdep]
    simp only [bind, Except.bind]
    rw [if_pos (by simp [hrole])]
    rw [if_pos (by simp [hsome, hne])]
  · intro limit skip search q1 q2
    unfold read_products
    simp [hrole]
  · intro limit skip search cq l hok p hp
    cases search with
    | none =>
      have hshape : read_products db admin limit skip none cq =
          .ok (List.take limit (List.drop skip
            (List.filter (fun q => some q.companyId == admin.companyId) db.products))) := by
        unfold read_products
        simp [hrole]
      rw [hshape] at hok
      simp only [Except.ok.injEq] at hok
      subst hok
      have hp1 := List.take_subset _ _ hp
      have hp2 := List.drop_subset _ _ hp1
      have hpred := (List.mem_filter.mp hp2).2
      rw [hco] at hpred
      simpa using hpred
    | some s =>
      have hshape : read_products db admin limit skip (some s) cq =
          .ok (List.take limit (List.drop skip
            (List.filter (fun q => (ilikeContains q.name s || ilikeContains q.sku s) &&
              (some q.companyId == admin.companyId)) db.products))) := by
        unfold read_products
        simp [hrole]
      rw [hshape] at hok
      simp only [Except.ok.injEq] at hok
      subst hok
      have hp1 := List.take_subset _ _ hp
      have hp2 := List.drop_subset _ _ hp1
      have hpred := (List.mem_filter.mp hp2).2
      rw [Bool.and_eq_true] at hpred
      have hpred2 := hpred.2
      rw [hco] at hpred2
      simpa using hpred2

theorem list_scoping_witness :
    (∀ u ∈ [uAcmeAdmin], u.companyId = some 10) ∧
    read_users testDB uAcmeAdmin (some 20) none = .error .forbidden ∧
    read_products testDB uAcmeAdmin 100 0 none (some 20) =
      read_products testDB uAcmeAdmin 100 0 none none := by
  have T := list_scoping testDB uAcmeAdmin 10 (by decide) (by decide)
  exact ⟨T.1 none [uAcmeAdmin] (by decide),
    T.2.2.1 (some 20) none (by decide) (by decide),
    T.2.2.2.1 100 0 none (some 20) none⟩

/-- C5: Rank enforcement.  For every caller whose role is `company_admin` and
every role `r` whose rank is at least `company_admin`'s (the repo encodes rank
as the role's integer id, privileged roles having the lower ids, so this is
`r.id ≤ admin.role.id`), creating a user with role `r`, or changing any
user's role to `r`, always fails with `Forbidden`; the result is an error, so
no user row is created or modified. -/
theorem rank_enforcement (db : DB) (admin : User) (r : Role)
    (hrole : admin.role.name = "company_admin") :
    (∀ uin newId, db.users.find? (fun u => u.username == uin.username) = none →
      db.roles.find? (fun rr => rr.id == uin.roleId) = some r →
      r.id ≤ admin.role.id →
      create_user db admin uin newId = .error .forbidden) ∧
    (∀ uid target payload rid,
      db.users.find? (fun v => v.id == uid) = some target →
      payload.roleId = some rid →
      db.roles.find? (fun rr => rr.id == rid) = some r →
      r.id ≤ admin.role.id →
      update_user db admin uid payload = .error .forbidden) := by
  have hdep : get_admin_user admin = .ok admin := by
    unfold get_admin_user
    simp [hrole]
  constructor
  · intro uin newId hfresh hrfind hrank
    unfold create_user
    rw [hdep]
    simp [bind, Except.bind, hfresh, hrfind, hrole, hrank]
  · intro uid target payload rid hfindu hpayload hrfind hrank
    have htid : target.id = uid := by
      have h := List.find?_some hfindu
      simpa using h
    have hrid : r.id = rid := by
      have h := List.find?_some hrfind
      simpa using h
    have hrank2 : rid ≤ admin.role.id := hrid ▸ hrank
    unfold update_user
    by_cases hself : target.id = admin.id
    · have huid : admin.id = uid := hself ▸ htid
      have hacc : get_user_and_check_access db uid admin true = .ok target := by
        unfold get_user_and_check_access
        rw [hfindu]
        simp [hself]
      rw [hacc]
      simp [bind, Except.bind, hpayload, hrfind, hrole, hrank2, huid]
    · by_cases hcm : target.companyId = admin.companyId
      · by_cases hta : (["global_admin", "company_admin"].contains target.role.name) = true
        · have hta2 : target.role.name = "global_admin" ∨ target.role.name = "company_admin" := by
            simpa using hta
          have hacc : get_user_and_check_access db uid admin true = .error .forbidden := by
            unfold get_user_and_check_access
            rw [hfindu]
            simp [hself, hrole, hcm]
            tauto
          rw [hacc]
          simp [bind, Except.bind]
        · have hta2 : ¬ target.role.name = "global_admin" ∧ ¬ target.role.name = "company_admin" := by
            simpa [not_or] using hta
          have hacc : get_user_and_check_access db uid admin true = .ok target := by
            unfold get_user_and_check_access
            rw [hfindu]
            simp [hself, hrole, hcm, hta2.1, hta2.2]
          rw [hacc]
          have hneq : ¬ (admin.id = uid) := by
            rw [← htid]
            exact fun hh => hself hh.symm
          simp [bind, Except.bind, hpayload, hrfind, hrole, hneq, hrank2]
      · have hacc : get_user_and_check_access db uid admin true = .error .forbidden := by
          unfold get_user_and_check_access
          rw [hfindu]
          simp [hself, hrole, hcm]
        rw [hacc]
        simp [bind, Except.bind]

theorem rank_enforcement_witness :
    create_user testDB uAcmeAdmin ⟨"newguy", true, 2, "pw123456", none, none⟩ 500 =
      .error .forbidden ∧
    update_user testDB uAcmeAdmin 101 ⟨none, none, some 1, none, none, none⟩ =
      .error .forbidden := by
  have T1 := rank_enforcement testDB uAcmeAdmin roleCompanyAdmin (by decide)
  have T2 := rank_enforcement testDB uAcmeAdmin roleGlobalAdmin (by decide)
  exact ⟨T1.1 ⟨"newguy", true, 2, "pw123456", none, none⟩ 500
      (by decide) (by decide) (by decide),
    T2.2 101 uAcmeAdmin ⟨none, none, some 1, none, none, none⟩ 1
      (by decide) (by decide) (by decide) (by decide)⟩

/-- A successful `Except` bind factors through a successful first step. -/
theorem exceptBindOkExists {α β : Type} {x : Except ApiError α}
    {f : α → Except ApiError β} {v : β}
    (h : x >>= f = .ok v) : ∃ a, x = .ok a ∧ f a = .ok v := by
  cases x with
  | error e =>
    rw [show ((Except.error e : Except ApiError α) >>= f) = .error e from rfl] at h
    cases h
  | ok a =>
    rw [show ((Except.ok a : Except ApiError α) >>= f) = f a from rfl] at h
    exact ⟨a, rfl, h⟩

/-- C10: User update frame effect.  In `update_user`, when the handled request
dict changes `company_id` (which the handler accepts from a global_admin
only) and does not supply a `branch_id`, the target user's `branch_id` — a
field absent from the request payload — is set to `None`; for every other
update request, fields not named in the payload are left unchanged. -/
theorem update_user_frame (db : DB) (currentUser : User) (uid : Nat)
    (payload : UserUpdatePayload) (target : User) (db' : DB) (u' : User)
    (htarget : get_user_and_check_access db uid currentUser true = .ok target)
    (hok : update_user db currentUser uid payload = .ok (db', u')) :
    (∀ c, payload.companyId = some (some c) → currentUser.role.name = "global_admin") ∧
    (∀ c, payload.companyId = some (some c) → payload.branchId = none →
      u'.branchId = none) ∧
    (payload.username = none → u'.username = target.username) ∧
    (payload.isActive = none → u'.isActive = target.isActive) ∧
    (payload.roleId = none → u'.role = target.role) ∧
    (payload.password = none → u'.passwordHash = target.passwordHash) ∧
    (payload.companyId = none → u'.companyId = target.companyId) ∧
    (payload.companyId = none → payload.branchId = none →
      u'.branchId = target.branchId) ∧
    u'.id = target.id := by
  unfold update_user at hok
  rw [htarget] at hok
  obtain ⟨dbUser, hdb, hok⟩ := exceptBindOkExists hok
  injection hdb with hdb
  subst hdb
  simp only [] at hok
  obtain ⟨newRole, hrs, hok⟩ := exceptBindOkExists hok
  obtain ⟨c0, hcs, hok⟩ := exceptBindOkExists hok
  obtain ⟨u0, hus, hok⟩ := exceptBindOkExists hok
  obtain ⟨b0, hbs, hok⟩ := exceptBindOkExists hok
  simp only [Except.ok.injEq, Prod.mk.injEq] at hok
  obtain ⟨hdb2, hu2⟩ := hok
  subst hu2
  refine ⟨?_, ?_, ?_, ?_, ?_, ?_, ?_, ?_, ?_⟩
  · intro c hc
    rw [hc] at hcs
    simp only [Option.join] at hcs
    by_contra hng
    simp [hng] at hcs
  · intro c hc hbn
    simp [hc, hbn]
  · intro hun
    simp [hun]
    split <;> simp [hun]
  · intro hia
    split <;> simp [hia]
  · intro hri
    rw [hri] at hrs
    simp only [Except.ok.injEq] at hrs
    subst hrs
    split <;> simp
  · intro hpw
    split <;> simp [hpw]
  · intro hci
    simp [hci]
  · intro hci hbn
    simp [hci, hbn]
  · split <;> simp

theorem update_user_frame_witness :
    uGlobal.role.name = "global_admin" ∧
    movedBetaCashier.branchId = none ∧
    movedBetaCashier.username = uBetaCashier.username ∧
    movedBetaCashier.id = uBetaCashier.id := by
  have T := update_user_frame testDB uGlobal 102 movePayload uBetaCashier
    testDBAfterMove movedBetaCashier (by decide) (by decide)
  exact ⟨T.1 10 rfl, T.2.1 10 rfl rfl, T.2.2.1 rfl, T.2.2.2.2.2.2.2.2⟩
